import Mathlib

/-!
Shallow embedding of `calaccess_processed/models/campaign/filings/form460.py`,
a Django model module declaring the processed-data schema for Form 460
campaign-disclosure filings.  The module is pure data definition: the
relational semantics embedded here is the one the declarations carry —
`unique_together` compiles to a SQL composite UNIQUE constraint (rows with a
NULL component never conflict), `null=True` fields are `Option`, foreign keys
declared without `db_constraint=False` are enforced by the storage layer,
`on_delete=SET_NULL` nulls the reference on parent deletion.  Decimal fields
with `decimal_places=2` are represented as integer cents.
-/

namespace Form460

/-- Calendar date, the value of a Django `DateField`. -/
structure Date where
  year : Int
  month : Int
  day : Int
deriving DecidableEq, Repr

/-- Shared fields of the abstract `Form460FilingBase` model: the non-null
reporting-period bounds `from_date` and `thru_date`, and the 18 summary
totals, each declared `null=True` (hence `Option Int`). -/
structure Form460FilingBase where
  from_date : Date
  thru_date : Date
  monetary_contributions : Option Int
  loans_received : Option Int
  subtotal_cash_contributions : Option Int
  nonmonetary_contributions : Option Int
  total_contributions : Option Int
  payments_made : Option Int
  loans_made : Option Int
  subtotal_cash_payments : Option Int
  unpaid_bills : Option Int
  nonmonetary_adjustment : Option Int
  total_expenditures_made : Option Int
  begin_cash_balance : Option Int
  cash_receipts : Option Int
  miscellaneous_cash_increases : Option Int
  cash_payments : Option Int
  ending_cash_balance : Option Int
  loan_guarantees_received : Option Int
  cash_equivalents : Option Int
  outstanding_debts : Option Int
deriving DecidableEq, Repr

/-- `Form460Filing`: the current-version row of a filing.  `filing_id` is the
primary key (`null=False`), `amendment_count` is `null=False`. -/
structure Form460Filing where
  filing_id : Int
  amendment_count : Int
  base : Form460FilingBase
deriving DecidableEq, Repr

/-- `Form460FilingVersion`: one row per amendment.  `pk` is the synthetic
primary key Django adds; `filing` is the foreign key to `Form460Filing`,
declared `null=True`, `on_delete=SET_NULL`, `db_constraint=False`;
`amend_id` is `null=False`. -/
structure Form460FilingVersion where
  pk : Int
  filing : Option Int
  amend_id : Int
  base : Form460FilingBase
deriving DecidableEq, Repr

/-- Fields declared on the abstract `Form460ScheduleAItemBase`:
`amount` (a required `DecimalField`, here integer cents). -/
structure SchedAData where
  amount : Int
deriving DecidableEq, Repr

/-- Fields declared on the abstract `Form460ScheduleCItemBase`:
`fair_market_value` (required decimal, integer cents) and the blankable
`contribution_description`. -/
structure SchedCData where
  fair_market_value : Int
  contribution_description : String
deriving DecidableEq, Repr

/-- Fields declared on the abstract `Form460ScheduleDItemBase`:
`cumulative_election_amount`, a `null=True` decimal (integer cents). -/
structure SchedDData where
  cumulative_election_amount : Option Int
deriving DecidableEq, Repr

/-- `Form460ScheduleEItem` and its sub-item variant add no fields of their own
in this module beyond the inherited expenditure base. -/
structure SchedEData where
  unit : Unit
deriving DecidableEq, Repr

/-- Fields declared on the abstract `Form460ScheduleGItemBase`: the agent name
parts and the `parent_schedule` indicator. -/
structure SchedGData where
  agent_title : String
  agent_lastname : String
  agent_firstname : String
  agent_name_suffix : String
  parent_schedule : String
deriving DecidableEq, Repr

/-- Fields declared on the abstract `Form460ScheduleIItemBase`:
`amount` (required decimal, integer cents) and the blankable
`receipt_description`. -/
structure SchedIData where
  amount : Int
  receipt_description : String
deriving DecidableEq, Repr

/-- One itemized row of a schedule table.  `parent` is the nullable foreign
key — the `filing` reference for a current-tier table, the `filing_version`
reference for a version-tier table.  Modelled from the spec: the `line_item`
field comes from the shared abstract base models (`CampaignContributionBase`,
`CampaignExpenditureItemBase`, `CampaignExpenditureSubItemBase`), which are
imported by the module but whose source is not part of this excerpt; per the
spec it is a required (non-null) line-item number.  `data` holds the
schedule-specific fields declared in this module. -/
structure ItemizedRow (α : Type) where
  parent : Option Int
  line_item : Int
  data : α
deriving DecidableEq, Repr

/-- The persisted state: the filing tier plus the six schedule families, each
as a current-tier table (parented to `Form460Filing`) and a version-tier
table (parented to `Form460FilingVersion`). -/
structure Store where
  filings : List Form460Filing
  versions : List Form460FilingVersion
  schedule_a_items : List (ItemizedRow SchedAData)
  schedule_a_item_versions : List (ItemizedRow SchedAData)
  schedule_c_items : List (ItemizedRow SchedCData)
  schedule_c_item_versions : List (ItemizedRow SchedCData)
  schedule_d_items : List (ItemizedRow SchedDData)
  schedule_d_item_versions : List (ItemizedRow SchedDData)
  schedule_e_items : List (ItemizedRow SchedEData)
  schedule_e_item_versions : List (ItemizedRow SchedEData)
  schedule_e_subitems : List (ItemizedRow SchedEData)
  schedule_e_subitem_versions : List (ItemizedRow SchedEData)
  schedule_g_items : List (ItemizedRow SchedGData)
  schedule_g_item_versions : List (ItemizedRow SchedGData)
  schedule_i_items : List (ItemizedRow SchedIData)
  schedule_i_item_versions : List (ItemizedRow SchedIData)
deriving DecidableEq, Repr

/-- The empty store. -/
def emptyStore : Store :=
  ⟨[], [], [], [], [], [], [], [], [], [], [], [], [], [], [], []⟩

/-- Reasons an insertion is rejected: a composite-UNIQUE violation, an
enforced foreign-key violation, or a missing required (non-null) field. -/
inductive InsertError where
  | uniqueViolation
  | fkViolation
  | missingField
deriving DecidableEq, Repr

/-- Whether a filing with the given `filing_id` exists. -/
def filingExists (s : Store) (fid : Int) : Bool :=
  s.filings.any (fun f => f.filing_id == fid)

/-- Whether a filing version with the given synthetic primary key exists. -/
def versionExists (s : Store) (pk : Int) : Bool :=
  s.versions.any (fun v => v.pk == pk)

/-- Insert a `Form460Filing` row: the primary key `filing_id` must be fresh. -/
def insertFiling (s : Store) (f : Form460Filing) : Except InsertError Store :=
  if filingExists s f.filing_id then .error .uniqueViolation
  else .ok { s with filings := s.filings ++ [f] }

/-- Insert a `Form460FilingVersion` row.  `unique_together = (filing,
amend_id)` is a SQL composite UNIQUE constraint: two rows conflict only when
both have the same non-NULL `filing` and the same `amend_id`.  The foreign
key is declared `db_constraint=False`, so no referential check is made. -/
def insertFilingVersion (s : Store) (v : Form460FilingVersion) :
    Except InsertError Store :=
  if v.filing.isSome &&
      s.versions.any (fun r => r.filing == v.filing && r.amend_id == v.amend_id)
  then .error .uniqueViolation
  else .ok { s with versions := s.versions ++ [v] }

/-- Whether inserting `it` into `rows` violates the table's
`unique_together = (parent, line_item)` constraint.  As in SQL, a row whose
`parent` component is NULL never conflicts. -/
def itemConflict {α : Type} (rows : List (ItemizedRow α)) (it : ItemizedRow α) :
    Bool :=
  it.parent.isSome &&
    rows.any (fun r => r.parent == it.parent && r.line_item == it.line_item)

/-- Insert an itemized row into a schedule table.  `dbc` is the foreign key's
`db_constraint` flag: when true (Django's default) a non-null `parent` must
satisfy `parentOk`; when false (declared `db_constraint=False`) no
referential check is made.  The composite UNIQUE on `(parent, line_item)` is
checked first. -/
def insertItem {α : Type} (dbc : Bool) (parentOk : Int → Bool)
    (rows : List (ItemizedRow α)) (it : ItemizedRow α) :
    Except InsertError (List (ItemizedRow α)) :=
  if itemConflict rows it then .error .uniqueViolation
  else if dbc && (match it.parent with
    | some p => !parentOk p
    | none => false)
  then .error .fkViolation
  else .ok (rows ++ [it])

/-- Insert into the Schedule A current table (`Form460ScheduleAItem`): its
`filing` foreign key has no `db_constraint=False`, so it is enforced. -/
def insertScheduleAItem (s : Store) (it : ItemizedRow SchedAData) :
    Except InsertError Store :=
  (insertItem true (filingExists s) s.schedule_a_items it).map
    (fun rows => { s with schedule_a_items := rows })

/-- Insert into the Schedule A version table
(`Form460ScheduleAItemVersion`): its `filing_version` foreign key is
enforced. -/
def insertScheduleAItemVersion (s : Store) (it : ItemizedRow SchedAData) :
    Except InsertError Store :=
  (insertItem true (versionExists s) s.schedule_a_item_versions it).map
    (fun rows => { s with schedule_a_item_versions := rows })

/-- Insert into the Schedule C current table: enforced `filing` key. -/
def insertScheduleCItem (s : Store) (it : ItemizedRow SchedCData) :
    Except InsertError Store :=
  (insertItem true (filingExists s) s.schedule_c_items it).map
    (fun rows => { s with schedule_c_items := rows })

/-- Insert into the Schedule C version table: enforced `filing_version`
key. -/
def insertScheduleCItemVersion (s : Store) (it : ItemizedRow SchedCData) :
    Except InsertError Store :=
  (insertItem true (versionExists s) s.schedule_c_item_versions it).map
    (fun rows => { s with schedule_c_item_versions := rows })

/-- Insert into the Schedule D current table: enforced `filing` key. -/
def insertScheduleDItem (s : Store) (it : ItemizedRow SchedDData) :
    Except InsertError Store :=
  (insertItem true (filingExists s) s.schedule_d_items it).map
    (fun rows => { s with schedule_d_items := rows })

/-- Insert into the Schedule D version table: enforced `filing_version`
key. -/
def insertScheduleDItemVersion (s : Store) (it : ItemizedRow SchedDData) :
    Except InsertError Store :=
  (insertItem true (versionExists s) s.schedule_d_item_versions it).map
    (fun rows => { s with schedule_d_item_versions := rows })

/-- Insert into the Schedule E current table: enforced `filing` key. -/
def insertScheduleEItem (s : Store) (it : ItemizedRow SchedEData) :
    Except InsertError Store :=
  (insertItem true (filingExists s) s.schedule_e_items it).map
    (fun rows => { s with schedule_e_items := rows })

/-- Insert into the Schedule E version table: enforced `filing_version`
key. -/
def insertScheduleEItemVersion (s : Store) (it : ItemizedRow SchedEData) :
    Except InsertError Store :=
  (insertItem true (versionExists s) s.schedule_e_item_versions it).map
    (fun rows => { s with schedule_e_item_versions := rows })

/-- Insert into the Schedule E sub-item current table: enforced `filing`
key. -/
def insertScheduleESubItem (s : Store) (it : ItemizedRow SchedEData) :
    Except InsertError Store :=
  (insertItem true (filingExists s) s.schedule_e_subitems it).map
    (fun rows => { s with schedule_e_subitems := rows })

/-- Insert into the Schedule E sub-item version table: enforced
`filing_version` key. -/
def insertScheduleESubItemVersion (s : Store) (it : ItemizedRow SchedEData) :
    Except InsertError Store :=
  (insertItem true (versionExists s) s.schedule_e_subitem_versions it).map
    (fun rows => { s with schedule_e_subitem_versions := rows })

/-- Insert into the Schedule G current table: enforced `filing` key. -/
def insertScheduleGItem (s : Store) (it : ItemizedRow SchedGData) :
    Except InsertError Store :=
  (insertItem true (filingExists s) s.schedule_g_items it).map
    (fun rows => { s with schedule_g_items := rows })

/-- Insert into the Schedule G version table: enforced `filing_version`
key. -/
def insertScheduleGItemVersion (s : Store) (it : ItemizedRow SchedGData) :
    Except InsertError Store :=
  (insertItem true (versionExists s) s.schedule_g_item_versions it).map
    (fun rows => { s with schedule_g_item_versions := rows })

/-- Insert into the Schedule I current table (`Form460ScheduleIItem`): its
`filing` foreign key is declared `db_constraint=False`, so no referential
check is made. -/
def insertScheduleIItem (s : Store) (it : ItemizedRow SchedIData) :
    Except InsertError Store :=
  (insertItem false (filingExists s) s.schedule_i_items it).map
    (fun rows => { s with schedule_i_items := rows })

/-- Insert into the Schedule I version table: enforced `filing_version`
key. -/
def insertScheduleIItemVersion (s : Store) (it : ItemizedRow SchedIData) :
    Except InsertError Store :=
  (insertItem true (versionExists s) s.schedule_i_item_versions it).map
    (fun rows => { s with schedule_i_item_versions := rows })

/-- Effect of `on_delete=SET_NULL` on the version table when filing `fid` is
deleted: each row whose `filing` reference is `fid` keeps every other field
and has `filing` set to NULL. -/
def orphanVersions (fid : Int) (rows : List Form460FilingVersion) :
    List Form460FilingVersion :=
  rows.map (fun r => if r.filing = some fid then { r with filing := none } else r)

/-- Effect of `on_delete=SET_NULL` on a current-tier itemized table when
filing `fid` is deleted. -/
def orphanItems {α : Type} (fid : Int) (rows : List (ItemizedRow α)) :
    List (ItemizedRow α) :=
  rows.map (fun r => if r.parent = some fid then { r with parent := none } else r)

/-- Delete the `Form460Filing` row with primary key `fid`.  Every foreign key
pointing at `Form460Filing` is declared `on_delete=SET_NULL`, so the version
rows and the six current-tier itemized tables are orphaned, not deleted; the
version-tier tables reference `Form460FilingVersion` and are untouched. -/
def deleteFiling (s : Store) (fid : Int) : Store :=
  { s with
    filings := s.filings.filter (fun f => f.filing_id != fid)
    versions := orphanVersions fid s.versions
    schedule_a_items := orphanItems fid s.schedule_a_items
    schedule_c_items := orphanItems fid s.schedule_c_items
    schedule_d_items := orphanItems fid s.schedule_d_items
    schedule_e_items := orphanItems fid s.schedule_e_items
    schedule_e_subitems := orphanItems fid s.schedule_e_subitems
    schedule_g_items := orphanItems fid s.schedule_g_items
    schedule_i_items := orphanItems fid s.schedule_i_items }

/-- Look up the filing-summary row by its primary key. -/
def getFiling (s : Store) (fid : Int) : Option Form460Filing :=
  s.filings.find? (fun f => f.filing_id == fid)

/-- Look up a filing-version row by its synthetic primary key. -/
def getVersionByPk (s : Store) (pk : Int) : Option Form460FilingVersion :=
  s.versions.find? (fun v => v.pk == pk)

/-- Unique lookup on a current-tier itemized table by `(filing, line_item)`,
the composite key the table is unique on. -/
def lookupItems {α : Type} (rows : List (ItemizedRow α)) (fid line : Int) :
    List (ItemizedRow α) :=
  rows.filter (fun r => r.parent == some fid && r.line_item == line)

/-- Modelled from the spec: the operation "register a new filing", which is
part of the ingestion pipeline and not of this module.  It creates the
`Form460Filing` row — erroring if the filing identifier is already present —
together with the `Form460FilingVersion` row of the original filing
(amendment index 0, the same summary data), `pk` being the synthetic key the
storage layer assigns to the new version row. -/
def registerFiling (s : Store) (fid pk : Int) (b : Form460FilingBase) :
    Except InsertError Store :=
  if filingExists s fid then .error .uniqueViolation
  else
    match insertFilingVersion s ⟨pk, some fid, 0, b⟩ with
    | .error e => .error e
    | .ok s1 =>
        .ok { s1 with filings := s1.filings ++ [⟨fid, 0, b⟩] }

/-- Modelled from the spec: the operation "register a new amendment", part of
the ingestion pipeline and not of this module.  It creates a
`Form460FilingVersion` row for `(fid, aid)` — failing with a uniqueness
violation if that pair already exists — and, if `aid` is the highest
amendment index seen for that filing, updates the `Form460Filing` row's
fields to the amendment's data and raises `amendment_count` to `aid` (the
field documents itself as the maximum of the amendment indexes). -/
def registerAmendment (s : Store) (fid pk aid : Int) (b : Form460FilingBase) :
    Except InsertError Store :=
  if !filingExists s fid then .error .fkViolation
  else
    match insertFilingVersion s ⟨pk, some fid, aid, b⟩ with
    | .error e => .error e
    | .ok s1 =>
        .ok { s1 with filings := s1.filings.map (fun f =>
          if f.filing_id = fid ∧ f.amendment_count < aid then ⟨fid, aid, b⟩
          else f) }

/-- States reachable from the empty store by the register-filing and
register-amendment operations. -/
inductive Reachable : Store → Prop where
  | empty : Reachable emptyStore
  | filing {s s' : Store} {fid pk : Int} {b : Form460FilingBase} :
      Reachable s → registerFiling s fid pk b = .ok s' → Reachable s'
  | amendment {s s' : Store} {fid pk aid : Int} {b : Form460FilingBase} :
      Reachable s → registerAmendment s fid pk aid b = .ok s' → Reachable s'

/-- The amendment indexes of the version rows whose `filing` reference is
`fid`. -/
def amendIdsOf (fid : Int) (rows : List Form460FilingVersion) : List Int :=
  rows.filterMap (fun v => if v.filing = some fid then some v.amend_id else none)

/-- Every filing's `amendment_count` is the maximum amendment index among the
version rows referencing it: it is one of them, and none exceeds it. -/
def countIsMax (s : Store) : Prop :=
  ∀ f ∈ s.filings,
    f.amendment_count ∈ amendIdsOf f.filing_id s.versions ∧
    ∀ a ∈ amendIdsOf f.filing_id s.versions, a ≤ f.amendment_count

/-- A filing-base payload as submitted to an insertion, before the non-null
checks: every field may still be absent.  The 18 summary totals are
`null=True`, so they stay `Option` in the stored row as well. -/
structure RawFilingBase where
  from_date : Option Date
  thru_date : Option Date
  monetary_contributions : Option Int
  loans_received : Option Int
  subtotal_cash_contributions : Option Int
  nonmonetary_contributions : Option Int
  total_contributions : Option Int
  payments_made : Option Int
  loans_made : Option Int
  subtotal_cash_payments : Option Int
  unpaid_bills : Option Int
  nonmonetary_adjustment : Option Int
  total_expenditures_made : Option Int
  begin_cash_balance : Option Int
  cash_receipts : Option Int
  miscellaneous_cash_increases : Option Int
  cash_payments : Option Int
  ending_cash_balance : Option Int
  loan_guarantees_received : Option Int
  cash_equivalents : Option Int
  outstanding_debts : Option Int
deriving DecidableEq, Repr

/-- Validate the shared filing-base fields: `from_date` and `thru_date` are
declared `null=False`, so an absent value is rejected before persistence;
every other field passes through unchanged. -/
def validateFilingBase (r : RawFilingBase) :
    Except InsertError Form460FilingBase :=
  match r.from_date, r.thru_date with
  | some fd, some td =>
      .ok ⟨fd, td, r.monetary_contributions, r.loans_received,
        r.subtotal_cash_contributions, r.nonmonetary_contributions,
        r.total_contributions, r.payments_made, r.loans_made,
        r.subtotal_cash_payments, r.unpaid_bills, r.nonmonetary_adjustment,
        r.total_expenditures_made, r.begin_cash_balance, r.cash_receipts,
        r.miscellaneous_cash_increases, r.cash_payments,
        r.ending_cash_balance, r.loan_guarantees_received,
        r.cash_equivalents, r.outstanding_debts⟩
  | _, _ => .error .missingField

/-- A `Form460Filing` row as submitted, before the non-null checks. -/
structure RawFiling where
  filing_id : Option Int
  amendment_count : Option Int
  base : RawFilingBase
deriving DecidableEq, Repr

/-- Validate a submitted filing row: `filing_id` (the primary key) and
`amendment_count` are `null=False`. -/
def validateFiling (r : RawFiling) : Except InsertError Form460Filing :=
  match r.filing_id, r.amendment_count, validateFilingBase r.base with
  | some fid, some c, .ok b => .ok ⟨fid, c, b⟩
  | _, _, _ => .error .missingField

/-- A `Form460FilingVersion` row as submitted, before the non-null checks.
The `filing` foreign key is declared `null=True` and so needs no check. -/
structure RawFilingVersion where
  pk : Int
  filing : Option Int
  amend_id : Option Int
  base : RawFilingBase
deriving DecidableEq, Repr

/-- Validate a submitted version row: `amend_id` is `null=False`; the
nullable `filing` reference passes through. -/
def validateFilingVersion (r : RawFilingVersion) :
    Except InsertError Form460FilingVersion :=
  match r.amend_id, validateFilingBase r.base with
  | some aid, .ok b => .ok ⟨r.pk, r.filing, aid, b⟩
  | _, _ => .error .missingField

/-- A Schedule A item as submitted, before the non-null checks.  The
`filing` reference is nullable; `line_item` (from the shared abstract base,
required per the spec) and `amount` (a `DecimalField` without `null=True`)
are required. -/
structure RawScheduleAItem where
  filing : Option Int
  line_item : Option Int
  amount : Option Int
deriving DecidableEq, Repr

/-- Validate a submitted Schedule A item: `line_item` and `amount` must be
present. -/
def validateScheduleAItem (r : RawScheduleAItem) :
    Except InsertError (ItemizedRow SchedAData) :=
  match r.line_item, r.amount with
  | some li, some amt => .ok ⟨r.filing, li, ⟨amt⟩⟩
  | _, _ => .error .missingField

/-- Python's rendering of a possibly-missing integer attribute, as used by
the `__str__` methods: `None` renders as the string "None". -/
def pyStrOptInt : Option Int → String
  | none => "None"
  | some n => toString n

/-- The `__str__` method shared by every version-tier itemized model: it
formats `self.filing_version.filing_id`, `self.filing_version.amend_id` and
`self.line_item` joined by dashes.  `self.filing_version` dereferences the
nullable foreign key: on an orphaned row it is `None` and the attribute
access fails, modelled as `none`; otherwise the referenced version row is
read and the dash-joined string returned.  (`filing_id` on the version row
is the raw foreign-key attribute, itself nullable.) -/
def itemVersionStr {α : Type} (s : Store) (it : ItemizedRow α) :
    Option String :=
  match it.parent with
  | none => none
  | some pk =>
      (getVersionByPk s pk).map (fun v =>
        pyStrOptInt v.filing ++ "-" ++ toString v.amend_id ++ "-" ++
          toString it.line_item)

/-- The `__str__` method shared by every current-tier itemized model:
`self.filing` (rendered `None` when orphaned) and `self.line_item` joined by
a dash.  It reads no attribute of the referenced row, so it succeeds even on
an orphaned row. -/
def itemCurrentStr {α : Type} (it : ItemizedRow α) : String :=
  pyStrOptInt it.parent ++ "-" ++ toString it.line_item

/-- The filing-base payload of the spec's walkthrough scenario: period
2020-01-01 through 2020-06-30, monetary contributions 5000, every other
total absent. -/
def scenarioBase : Form460FilingBase :=
  ⟨⟨2020, 1, 1⟩, ⟨2020, 6, 30⟩, some 5000, none, none, none, none, none,
    none, none, none, none, none, none, none, none, none, none, none, none,
    none⟩

/-- The store after creating `FilingSummary(filing_id=1001,
amendment_count=0)` in the empty store. -/
def scenarioStore1 : Store :=
  { emptyStore with filings := [⟨1001, 0, scenarioBase⟩] }

/-- The store after additionally creating `FilingVersion(filing=1001,
amend_id=0)` with the same totals. -/
def scenarioStore2 : Store :=
  { scenarioStore1 with versions := [⟨1, some 1001, 0, scenarioBase⟩] }

/-- The store after additionally attaching the Schedule A item
`(filing=1001, line_item=1, amount=2500.00)` (250000 cents). -/
def scenarioStore3 : Store :=
  { scenarioStore2 with schedule_a_items := [⟨some 1001, 1, ⟨250000⟩⟩] }

/-- A version row with a NULL `filing` reference. -/
def nullVersionA : Form460FilingVersion := ⟨10, none, 0, scenarioBase⟩

/-- A second version row with the same NULL `filing` and the same
`amend_id`. -/
def nullVersionB : Form460FilingVersion := ⟨11, none, 0, scenarioBase⟩

/-- The store holding only `nullVersionA`. -/
def nullVersionStore1 : Store :=
  { emptyStore with versions := [nullVersionA] }

/-- The store holding both NULL-filing version rows. -/
def nullVersionStore2 : Store :=
  { emptyStore with versions := [nullVersionA, nullVersionB] }

/-- An orphaned Schedule A row: parent reference absent, line_item 4. -/
def orphanItemA : ItemizedRow SchedAData := ⟨none, 4, ⟨111⟩⟩

/-- A second orphaned Schedule A row with the same line_item 4. -/
def orphanItemB : ItemizedRow SchedAData := ⟨none, 4, ⟨222⟩⟩

/-- The store holding only `orphanItemA`. -/
def orphanStore1 : Store :=
  { emptyStore with schedule_a_items := [orphanItemA] }

/-- The store holding both orphaned Schedule A rows. -/
def orphanStore2 : Store :=
  { emptyStore with schedule_a_items := [orphanItemA, orphanItemB] }

/-- A version row whose `filing` reference is present (filing 7). -/
def presentVersionA : Form460FilingVersion := ⟨21, some 7, 2, scenarioBase⟩

/-- A second version row with the same present `filing` and `amend_id`. -/
def presentVersionB : Form460FilingVersion := ⟨22, some 7, 2, scenarioBase⟩

/-- The store holding only `presentVersionA`. -/
def presentVersionStore1 : Store :=
  { emptyStore with versions := [presentVersionA] }

/-- A Schedule A item whose non-null `filing` reference is dangling
(filing 999 does not exist in the empty store). -/
def danglingItemA : ItemizedRow SchedAData := ⟨some 999, 1, ⟨100⟩⟩

/-- A dangling version row referencing the non-existent filing 999. -/
def danglingVersion : Form460FilingVersion := ⟨31, some 999, 0, scenarioBase⟩

/-- A Schedule I item whose non-null `filing` reference is dangling. -/
def danglingItemI : ItemizedRow SchedIData := ⟨some 999, 5, ⟨100, ""⟩⟩

/-- A Schedule A row with present parent 1001 and line_item 1. -/
def presentItemA : ItemizedRow SchedAData := ⟨some 1001, 1, ⟨250000⟩⟩

/-- A filing base with every nullable total absent. -/
def nullTotalsBase : Form460FilingBase :=
  ⟨⟨2021, 1, 1⟩, ⟨2021, 12, 31⟩, none, none, none, none, none, none, none,
    none, none, none, none, none, none, none, none, none, none, none, none⟩

/-- A filing-summary row carrying `nullTotalsBase`. -/
def nullTotalsFiling : Form460Filing := ⟨42, 0, nullTotalsBase⟩

/-- The store holding only `nullTotalsFiling`. -/
def nullTotalsStore : Store :=
  { emptyStore with filings := [nullTotalsFiling] }

/-- Every one of the 18 nullable summary totals is absent. -/
def allTotalsNull (b : Form460FilingBase) : Prop :=
  b.monetary_contributions = none ∧ b.loans_received = none ∧
  b.subtotal_cash_contributions = none ∧ b.nonmonetary_contributions = none ∧
  b.total_contributions = none ∧ b.payments_made = none ∧
  b.loans_made = none ∧ b.subtotal_cash_payments = none ∧
  b.unpaid_bills = none ∧ b.nonmonetary_adjustment = none ∧
  b.total_expenditures_made = none ∧ b.begin_cash_balance = none ∧
  b.cash_receipts = none ∧ b.miscellaneous_cash_increases = none ∧
  b.cash_payments = none ∧ b.ending_cash_balance = none ∧
  b.loan_guarantees_received = none ∧ b.cash_equivalents = none ∧
  b.outstanding_debts = none

/-- No two rows of an itemized table share a present `(parent, line_item)`
key. -/
def distinctPresentKeys {α : Type} (rows : List (ItemizedRow α)) : Prop :=
  rows.Pairwise (fun r r' =>
    ¬(r.parent.isSome = true ∧ r.parent = r'.parent ∧
      r.line_item = r'.line_item))

/-- The inductive invariant of the register operations: filing primary keys
are pairwise distinct, every non-null `filing` reference on a version row
resolves, and `amendment_count` is the maximum amendment index. -/
def StoreInv (s : Store) : Prop :=
  s.filings.Pairwise (fun f g => f.filing_id ≠ g.filing_id) ∧
  (∀ v ∈ s.versions, ∀ fid : Int, v.filing = some fid →
    filingExists s fid = true) ∧
  countIsMax s

theorem filingExists_iff {s : Store} {fid : Int} :
    filingExists s fid = true ↔ ∃ f ∈ s.filings, f.filing_id = fid := by
  simp [filingExists, List.any_eq_true, beq_iff_eq]

theorem mem_amendIdsOf {a fid : Int} {rows : List Form460FilingVersion} :
    a ∈ amendIdsOf fid rows ↔
      ∃ v ∈ rows, v.filing = some fid ∧ v.amend_id = a := by
  simp only [amendIdsOf, List.mem_filterMap]
  constructor
  · rintro ⟨v, hv, h⟩
    by_cases hf : v.filing = some fid
    · simp [hf] at h
      exact ⟨v, hv, hf, h⟩
    · simp [hf] at h
  · rintro ⟨v, hv, hf, ha⟩
    exact ⟨v, hv, by simp [hf, ha]⟩

theorem amendIdsOf_append {fid : Int}
    {rows rows' : List Form460FilingVersion} :
    amendIdsOf fid (rows ++ rows') =
      amendIdsOf fid rows ++ amendIdsOf fid rows' := by
  simp [amendIdsOf, List.filterMap_append]

theorem find?_append_singleton {α : Type} (l : List α) (p : α → Bool) (a : α)
    (hl : l.any p = false) (ha : p a = true) :
    (l ++ [a]).find? p = some a := by
  induction l with
  | nil => simp [List.find?, ha]
  | cons x xs ih =>
      simp only [List.any_cons, Bool.or_eq_false_iff] at hl
      simp only [List.cons_append, List.find?]
      rw [hl.1]
      exact ih hl.2

theorem orphanItems_spec {α : Type} (fid : Int)
    (rows : List (ItemizedRow α)) :
    (orphanItems fid rows).length = rows.length ∧
    ∀ (i : Nat) (r : ItemizedRow α), rows[i]? = some r →
      (orphanItems fid rows)[i]? =
        some { r with parent := if r.parent = some fid then none
                                else r.parent } := by
  constructor
  · simp [orphanItems]
  · intro i r hr
    simp only [orphanItems, List.getElem?_map, hr, Option.map_some]
    by_cases h : r.parent = some fid <;> simp [h]

theorem orphanVersions_spec (fid : Int)
    (rows : List Form460FilingVersion) :
    (orphanVersions fid rows).length = rows.length ∧
    ∀ (i : Nat) (r : Form460FilingVersion), rows[i]? = some r →
      (orphanVersions fid rows)[i]? =
        some { r with filing := if r.filing = some fid then none
                                else r.filing } := by
  constructor
  · simp [orphanVersions]
  · intro i r hr
    simp only [orphanVersions, List.getElem?_map, hr, Option.map_some]
    by_cases h : r.filing = some fid <;> simp [h]

theorem getFiling_insertFiling {s s' : Store} {f : Form460Filing}
    (h : insertFiling s f = .ok s') : getFiling s' f.filing_id = some f := by
  by_cases he : filingExists s f.filing_id = true
  · simp [insertFiling, he] at h
  · simp only [insertFiling, he, Bool.false_eq_true, if_false,
      Except.ok.injEq] at h
    subst h
    exact find?_append_singleton _ _ _ (by simpa [filingExists] using he)
      (by simp)

theorem storeInv_empty : StoreInv emptyStore := by
  refine ⟨?_, ?_, ?_⟩ <;> simp [emptyStore, countIsMax]

theorem updater_filing_id (fid aid : Int) (b : Form460FilingBase)
    (f : Form460Filing) :
    (if f.filing_id = fid ∧ f.amendment_count < aid
      then (⟨fid, aid, b⟩ : Form460Filing) else f).filing_id = f.filing_id := by
  by_cases hcond : f.filing_id = fid ∧ f.amendment_count < aid
  · rw [if_pos hcond]
    exact hcond.1.symm
  · rw [if_neg hcond]

theorem filings_map_updater_any (s : Store) (fid aid fid' : Int)
    (b : Form460FilingBase) :
    (s.filings.map (fun f =>
      if f.filing_id = fid ∧ f.amendment_count < aid
      then (⟨fid, aid, b⟩ : Form460Filing) else f)).any
        (fun f => f.filing_id == fid') = filingExists s fid' := by
  rw [List.any_map]
  unfold filingExists
  congr 1
  funext f
  simp only [Function.comp_apply, updater_filing_id]

theorem storeInv_registerFiling {s s' : Store} {fid pk : Int}
    {b : Form460FilingBase} (hinv : StoreInv s)
    (h : registerFiling s fid pk b = .ok s') : StoreInv s' := by
  obtain ⟨hpw, hfk, hmax⟩ := hinv
  by_cases he : filingExists s fid = true
  · simp [registerFiling, he] at h
  · have hnov : s.versions.any
        (fun r => r.filing == some fid && r.amend_id == (0 : Int)) = false := by
      rw [Bool.eq_false_iff]
      intro hc
      rw [List.any_eq_true] at hc
      obtain ⟨r, hr, hcond⟩ := hc
      rw [Bool.and_eq_true, beq_iff_eq, beq_iff_eq] at hcond
      exact he (hfk r hr fid hcond.1)
    have hins : insertFilingVersion s ⟨pk, some fid, 0, b⟩ =
        .ok { s with versions := s.versions ++ [⟨pk, some fid, 0, b⟩] } := by
      simp [insertFilingVersion, hnov]
    rw [Bool.not_eq_true] at he
    simp only [registerFiling, he, Bool.false_eq_true, if_false, hins,
      Except.ok.injEq] at h
    subst h
    have he' : filingExists s fid = false := he
    rw [← Bool.not_eq_true] at he
    refine ⟨?_, ?_, ?_⟩
    · show (s.filings ++ [(⟨fid, 0, b⟩ : Form460Filing)]).Pairwise _
      rw [List.pairwise_append]
      refine ⟨hpw, by simp, ?_⟩
      intro f hf g hg
      simp only [List.mem_singleton] at hg
      subst hg
      intro hEq
      exact he (filingExists_iff.mpr ⟨f, hf, hEq⟩)
    · intro v hv fid' hvf
      show (s.filings ++ [(⟨fid, 0, b⟩ : Form460Filing)]).any
        (fun f => f.filing_id == fid') = true
      rw [List.any_append, Bool.or_eq_true]
      rcases List.mem_append.mp hv with hv | hv
      · exact Or.inl (hfk v hv fid' hvf)
      · simp only [List.mem_singleton] at hv
        subst hv
        obtain rfl : fid = fid' := by simpa using hvf
        exact Or.inr (by simp)
    · intro g hg
      rcases List.mem_append.mp hg with hgOld | hgNew
      · have hgne : g.filing_id ≠ fid := fun hEq =>
          he (filingExists_iff.mpr ⟨g, hgOld, hEq⟩)
        have hne : ¬(fid = g.filing_id) := fun hEq => hgne hEq.symm
        have hids : amendIdsOf g.filing_id
            (s.versions ++ [⟨pk, some fid, 0, b⟩]) =
            amendIdsOf g.filing_id s.versions := by
          rw [amendIdsOf_append]
          have : amendIdsOf g.filing_id
              [(⟨pk, some fid, 0, b⟩ : Form460FilingVersion)] = [] := by
            simp [amendIdsOf, hne]
          rw [this, List.append_nil]
        obtain ⟨h1, h2⟩ := hmax g hgOld
        exact ⟨by rw [hids]; exact h1, by rw [hids]; exact h2⟩
      · simp only [List.mem_singleton] at hgNew
        subst hgNew
        have hold : amendIdsOf fid s.versions = [] := by
          rw [List.eq_nil_iff_forall_not_mem]
          intro a ha
          obtain ⟨v, hv, hvf, _⟩ := mem_amendIdsOf.mp ha
          exact he (hfk v hv fid hvf)
        have hids : amendIdsOf fid (s.versions ++ [⟨pk, some fid, 0, b⟩]) =
            [(0 : Int)] := by
          rw [amendIdsOf_append, hold]
          simp [amendIdsOf]
        constructor
        · show (0 : Int) ∈ amendIdsOf fid (s.versions ++ _)
          rw [hids]
          simp
        · intro a ha
          rw [hids] at ha
          simp only [List.mem_singleton] at ha
          subst ha
          exact le_refl _

theorem storeInv_registerAmendment {s s' : Store} {fid pk aid : Int}
    {b : Form460FilingBase} (hinv : StoreInv s)
    (h : registerAmendment s fid pk aid b = .ok s') : StoreInv s' := by
  obtain ⟨hpw, hfk, hmax⟩ := hinv
  by_cases he : filingExists s fid = true
  case neg =>
    rw [Bool.not_eq_true] at he
    simp [registerAmendment, he] at h
  case pos =>
  by_cases hc : s.versions.any
      (fun r => r.filing == some fid && r.amend_id == aid) = true
  · simp [registerAmendment, he, insertFilingVersion, hc] at h
  · rw [Bool.not_eq_true] at hc
    have hins : insertFilingVersion s ⟨pk, some fid, aid, b⟩ =
        .ok { s with versions := s.versions ++ [⟨pk, some fid, aid, b⟩] } := by
      simp [insertFilingVersion, hc]
    simp only [registerAmendment, he, Bool.not_true, Bool.false_eq_true,
      if_false, hins, Except.ok.injEq] at h
    subst h
    refine ⟨?_, ?_, ?_⟩
    · show (s.filings.map _).Pairwise _
      refine List.Pairwise.map _ ?_ hpw
      intro a c hac
      show (if a.filing_id = fid ∧ a.amendment_count < aid then _ else a).filing_id ≠
        (if c.filing_id = fid ∧ c.amendment_count < aid then _ else c).filing_id
      rw [updater_filing_id, updater_filing_id]
      exact hac
    · intro v hv fid' hvf
      dsimp only [filingExists]
      rw [filings_map_updater_any]
      rcases List.mem_append.mp hv with hv | hv
      · exact hfk v hv fid' hvf
      · simp only [List.mem_singleton] at hv
        subst hv
        obtain rfl : fid = fid' := by simpa using hvf
        exact he
    · intro g hg
      simp only [List.mem_map] at hg
      obtain ⟨f, hf, rfl⟩ := hg
      obtain ⟨h1, h2⟩ := hmax f hf
      by_cases hcond : f.filing_id = fid ∧ f.amendment_count < aid
      · rw [if_pos hcond]
        have hfid := hcond.1
        have hids : amendIdsOf (⟨fid, aid, b⟩ : Form460Filing).filing_id
            (s.versions ++ [⟨pk, some fid, aid, b⟩]) =
            amendIdsOf fid s.versions ++ [aid] := by
          show amendIdsOf fid _ = _
          rw [amendIdsOf_append]
          have : amendIdsOf fid
              [(⟨pk, some fid, aid, b⟩ : Form460FilingVersion)] = [aid] := by
            simp [amendIdsOf]
          rw [this]
        rw [hids]
        constructor
        · simp
        · intro a ha
          rcases List.mem_append.mp ha with ha | ha
          · rw [hfid] at h2
            exact le_of_lt (lt_of_le_of_lt (h2 a ha) hcond.2)
          · simp only [List.mem_singleton] at ha
            subst ha
            exact le_refl _
      · rw [if_neg hcond]
        rw [amendIdsOf_append]
        by_cases hfid : f.filing_id = fid
        · have haid : aid ≤ f.amendment_count := by
            by_contra hlt
            exact hcond ⟨hfid, lt_of_not_le hlt⟩
          have hone : amendIdsOf f.filing_id
              [(⟨pk, some fid, aid, b⟩ : Form460FilingVersion)] = [aid] := by
            simp [amendIdsOf, hfid]
          rw [hone]
          constructor
          · exact List.mem_append.mpr (Or.inl h1)
          · intro a ha
            rcases List.mem_append.mp ha with ha | ha
            · exact h2 a ha
            · simp only [List.mem_singleton] at ha
              subst ha
              exact haid
        · have hne : ¬(fid = f.filing_id) := fun hEq => hfid hEq.symm
          have hone : amendIdsOf f.filing_id
              [(⟨pk, some fid, aid, b⟩ : Form460FilingVersion)] = [] := by
            simp [amendIdsOf, hne]
          rw [hone, List.append_nil]
          exact ⟨h1, h2⟩

theorem storeInv_of_reachable {s : Store} (h : Reachable s) : StoreInv s := by
  induction h with
  | empty => exact storeInv_empty
  | filing _ hok ih => exact storeInv_registerFiling ih hok
  | amendment _ hok ih => exact storeInv_registerAmendment ih hok

/-- Claim C1: in every store reachable by the register-filing and
register-amendment operations, each filing's `amendment_count` equals the
maximum `amend_id` among the `Form460FilingVersion` rows referencing it
(it is one of those amendment indexes and bounds them all). -/
theorem claim1_amendment_count_eq_max_amend_id (s : Store)
    (h : Reachable s) : countIsMax s :=
  (storeInv_of_reachable h).2.2

/-- Claim C1 witness: the invariant holds in the concrete store obtained by
registering filing 1001. -/
theorem claim1_amendment_count_eq_max_amend_id_witness :
    countIsMax scenarioStore2 :=
  claim1_amendment_count_eq_max_amend_id scenarioStore2
    (@Reachable.filing emptyStore scenarioStore2 1001 1 scenarioBase
      Reachable.empty rfl)

/-- Claim C2 counterexample: two `Form460FilingVersion` rows with identical
`(filing, amend_id)` — both with a NULL `filing` reference and `amend_id`
0 — where the second insertion succeeds instead of failing, because the
composite UNIQUE constraint does not constrain rows with a NULL
component. -/
theorem claim2_counterexample :
    nullVersionA.filing = nullVersionB.filing ∧
    nullVersionA.amend_id = nullVersionB.amend_id ∧
    insertFilingVersion emptyStore nullVersionA = .ok nullVersionStore1 ∧
    insertFilingVersion nullVersionStore1 nullVersionB =
      .ok nullVersionStore2 :=
  ⟨rfl, rfl, rfl, rfl⟩

/-- Claim C2 (amended): for rows whose `filing` reference is present
(non-NULL), inserting a second `Form460FilingVersion` with the same
`(filing, amend_id)` fails with a uniqueness violation; the failed
insertion produces no new store, so the store is unchanged. -/
theorem claim2_duplicate_present_version_fails (s s' : Store)
    (v w : Form460FilingVersion) (hsome : v.filing.isSome = true)
    (hf : w.filing = v.filing) (ha : w.amend_id = v.amend_id)
    (h : insertFilingVersion s v = .ok s') :
    insertFilingVersion s' w = .error .uniqueViolation := by
  by_cases hc : (v.filing.isSome && s.versions.any
      (fun r => r.filing == v.filing && r.amend_id == v.amend_id)) = true
  · simp only [insertFilingVersion, hc, if_true] at h
    cases h
  · rw [Bool.not_eq_true] at hc
    simp only [insertFilingVersion, hc, Bool.false_eq_true, if_false,
      Except.ok.injEq] at h
    subst h
    have hcond : (w.filing.isSome && (s.versions ++ [v]).any
        (fun r => r.filing == w.filing && r.amend_id == w.amend_id)) =
        true := by
      rw [hf, ha]
      simp [List.any_append, hsome]
    simp only [insertFilingVersion]
    rw [if_pos hcond]

/-- Claim C2 witness: the amended statement at a concrete present-filing
duplicate pair. -/
theorem claim2_duplicate_present_version_fails_witness :
    insertFilingVersion presentVersionStore1 presentVersionB =
      .error .uniqueViolation :=
  claim2_duplicate_present_version_fails emptyStore presentVersionStore1
    presentVersionA presentVersionB rfl rfl rfl rfl

/-- Claim C3 counterexample: in the Schedule A current table two rows with
the same `(parent, line_item)` — both with an absent parent and line_item
4 — coexist, the duplicate insertion succeeding instead of failing,
because the composite UNIQUE does not constrain rows with a NULL
component. -/
theorem claim3_counterexample :
    orphanItemA.parent = orphanItemB.parent ∧
    orphanItemA.line_item = orphanItemB.line_item ∧
    insertScheduleAItem emptyStore orphanItemA = .ok orphanStore1 ∧
    insertScheduleAItem orphanStore1 orphanItemB = .ok orphanStore2 :=
  ⟨rfl, rfl, rfl, rfl⟩

/-- Claim C3 (amended): in every schedule family and tier — all twelve
itemized tables insert through `insertItem` — rows with a present parent
are unique per `(parent, line_item)`: inserting a duplicate of a
present-parented row fails with a uniqueness violation, and insertion
preserves pairwise distinctness of present `(parent, line_item)` keys. -/
theorem claim3_present_parent_uniqueness {α : Type} (dbc dbc2 : Bool)
    (parentOk parentOk2 : Int → Bool) (rows rows' : List (ItemizedRow α))
    (it it' : ItemizedRow α) (hsome : it.parent.isSome = true)
    (hp : it'.parent = it.parent) (hl : it'.line_item = it.line_item)
    (h : insertItem dbc parentOk rows it = .ok rows') :
    insertItem dbc2 parentOk2 rows' it' = .error .uniqueViolation ∧
    (distinctPresentKeys rows → distinctPresentKeys rows') := by
  by_cases hc : itemConflict rows it = true
  · simp [insertItem, hc] at h
  · rw [Bool.not_eq_true] at hc
    by_cases hfkc : (dbc && (match it.parent with
        | some p => !parentOk p
        | none => false)) = true
    · simp [insertItem, hc, hfkc] at h
    · rw [Bool.not_eq_true] at hfkc
      simp only [insertItem, hc, hfkc, Bool.false_eq_true, if_false,
        Except.ok.injEq] at h
      subst h
      constructor
      · have hcond : itemConflict (rows ++ [it]) it' = true := by
          unfold itemConflict
          rw [hp, hl]
          simp [List.any_append, hsome]
        simp [insertItem, hcond]
      · intro hd
        unfold distinctPresentKeys at hd ⊢
        rw [List.pairwise_append]
        refine ⟨hd, List.pairwise_singleton _ _, ?_⟩
        intro r hr r2 hr2
        simp only [List.mem_singleton] at hr2
        rw [hr2]
        rintro ⟨_, hpe, hle⟩
        have htrue : itemConflict rows it = true := by
          unfold itemConflict
          rw [Bool.and_eq_true]
          refine ⟨hsome, ?_⟩
          rw [List.any_eq_true]
          exact ⟨r, hr, by
            rw [Bool.and_eq_true, beq_iff_eq, beq_iff_eq]
            exact ⟨hpe, hle⟩⟩
        rw [hc] at htrue
        exact Bool.false_ne_true htrue

/-- Claim C3 witness: the amended statement at a concrete present-parent
duplicate. -/
theorem claim3_present_parent_uniqueness_witness :
    insertItem true (fun _ => true) [presentItemA] presentItemA =
      .error .uniqueViolation ∧
    (distinctPresentKeys ([] : List (ItemizedRow SchedAData)) →
      distinctPresentKeys [presentItemA]) :=
  claim3_present_parent_uniqueness true true (fun _ => true) (fun _ => true)
    [] [presentItemA] presentItemA presentItemA rfl rfl rfl rfl

/-- Claim C4: deleting a `Form460Filing` row leaves every version row and
every current-tier itemized row intact: table lengths are unchanged (no row
is deleted) and each row keeps every field, the parent reference becoming
NULL exactly when it pointed at the deleted filing. -/
theorem claim4_delete_orphans_rows (s : Store) (fid : Int) :
    ((deleteFiling s fid).versions.length = s.versions.length ∧
      ∀ (i : Nat) (r : Form460FilingVersion), s.versions[i]? = some r →
        (deleteFiling s fid).versions[i]? =
          some { r with filing := if r.filing = some fid then none
                                  else r.filing }) ∧
    ((deleteFiling s fid).schedule_a_items.length =
        s.schedule_a_items.length ∧
      ∀ (i : Nat) (r : ItemizedRow SchedAData),
        s.schedule_a_items[i]? = some r →
        (deleteFiling s fid).schedule_a_items[i]? =
          some { r with parent := if r.parent = some fid then none
                                  else r.parent }) ∧
    ((deleteFiling s fid).schedule_c_items.length =
        s.schedule_c_items.length ∧
      ∀ (i : Nat) (r : ItemizedRow SchedCData),
        s.schedule_c_items[i]? = some r →
        (deleteFiling s fid).schedule_c_items[i]? =
          some { r with parent := if r.parent = some fid then none
                                  else r.parent }) ∧
    ((deleteFiling s fid).schedule_d_items.length =
        s.schedule_d_items.length ∧
      ∀ (i : Nat) (r : ItemizedRow SchedDData),
        s.schedule_d_items[i]? = some r →
        (deleteFiling s fid).schedule_d_items[i]? =
          some { r with parent := if r.parent = some fid then none
                                  else r.parent }) ∧
    ((deleteFiling s fid).schedule_e_items.length =
        s.schedule_e_items.length ∧
      ∀ (i : Nat) (r : ItemizedRow SchedEData),
        s.schedule_e_items[i]? = some r →
        (deleteFiling s fid).schedule_e_items[i]? =
          some { r with parent := if r.parent = some fid then none
                                  else r.parent }) ∧
    ((deleteFiling s fid).schedule_e_subitems.length =
        s.schedule_e_subitems.length ∧
      ∀ (i : Nat) (r : ItemizedRow SchedEData),
        s.schedule_e_subitems[i]? = some r →
        (deleteFiling s fid).schedule_e_subitems[i]? =
          some { r with parent := if r.parent = some fid then none
                                  else r.parent }) ∧
    ((deleteFiling s fid).schedule_g_items.length =
        s.schedule_g_items.length ∧
      ∀ (i : Nat) (r : ItemizedRow SchedGData),
        s.schedule_g_items[i]? = some r →
        (deleteFiling s fid).schedule_g_items[i]? =
          some { r with parent := if r.parent = some fid then none
                                  else r.parent }) ∧
    ((deleteFiling s fid).schedule_i_items.length =
        s.schedule_i_items.length ∧
      ∀ (i : Nat) (r : ItemizedRow SchedIData),
        s.schedule_i_items[i]? = some r →
        (deleteFiling s fid).schedule_i_items[i]? =
          some { r with parent := if r.parent = some fid then none
                                  else r.parent }) :=
  ⟨orphanVersions_spec fid s.versions,
    orphanItems_spec fid s.schedule_a_items,
    orphanItems_spec fid s.schedule_c_items,
    orphanItems_spec fid s.schedule_d_items,
    orphanItems_spec fid s.schedule_e_items,
    orphanItems_spec fid s.schedule_e_subitems,
    orphanItems_spec fid s.schedule_g_items,
    orphanItems_spec fid s.schedule_i_items⟩

/-- Claim C4 witness: deleting filing 1001 from the scenario store orphans
its version row and its Schedule A row in place. -/
theorem claim4_delete_orphans_rows_witness :
    (deleteFiling scenarioStore3 1001).versions[0]? =
      some ⟨1, none, 0, scenarioBase⟩ ∧
    (deleteFiling scenarioStore3 1001).schedule_a_items[0]? =
      some ⟨none, 1, ⟨250000⟩⟩ :=
  ⟨(claim4_delete_orphans_rows scenarioStore3 1001).1.2 0
      ⟨1, some 1001, 0, scenarioBase⟩ rfl,
    (claim4_delete_orphans_rows scenarioStore3 1001).2.1.2 0
      ⟨some 1001, 1, ⟨250000⟩⟩ rfl⟩

/-- Claim C5 counterexample: the Schedule A current table's `filing`
reference is declared without `db_constraint=False`, so it is enforced:
inserting a row whose non-null parent points to the non-existent filing
999 fails with a foreign-key violation instead of succeeding. -/
theorem claim5_counterexample :
    insertScheduleAItem emptyStore danglingItemA = .error .fkViolation :=
  rfl

/-- Claim C5 (amended): the two parent references declared
`db_constraint=False` — `Form460FilingVersion.filing` and the Schedule I
current table's `filing` — are non-enforcing: inserting a row whose
non-null parent points to a non-existent filing succeeds (absent a
uniqueness conflict); the remaining parent references are
storage-enforced. -/
theorem claim5_unconstrained_fk_dangling_ok (s : Store)
    (v : Form460FilingVersion) (it : ItemizedRow SchedIData)
    (fidv fidi : Int) (hv : v.filing = some fidv)
    (hdv : filingExists s fidv = false)
    (hcv : s.versions.any
      (fun r => r.filing == v.filing && r.amend_id == v.amend_id) = false)
    (hi : it.parent = some fidi) (hdi : filingExists s fidi = false)
    (hci : itemConflict s.schedule_i_items it = false) :
    insertFilingVersion s v = .ok { s with versions := s.versions ++ [v] } ∧
    insertScheduleIItem s it =
      .ok { s with schedule_i_items := s.schedule_i_items ++ [it] } := by
  constructor
  · simp [insertFilingVersion, hcv]
  · simp [insertScheduleIItem, insertItem, hci, Except.map]

/-- Claim C5 witness: dangling inserts into the two unconstrained tables
succeed on the empty store. -/
theorem claim5_unconstrained_fk_dangling_ok_witness :
    insertFilingVersion emptyStore danglingVersion =
      .ok { emptyStore with versions := [danglingVersion] } ∧
    insertScheduleIItem emptyStore danglingItemI =
      .ok { emptyStore with schedule_i_items := [danglingItemI] } :=
  claim5_unconstrained_fk_dangling_ok emptyStore danglingVersion
    danglingItemI 999 999 rfl rfl rfl rfl rfl rfl

/-- Claim C6: writing a `Form460Filing` whose optional numeric totals are
all absent and re-reading it by `filing_id` yields the identical record,
every optional total still absent — no default-zero coercion. -/
theorem claim6_null_totals_round_trip (s s' : Store) (f : Form460Filing)
    (hnull : allTotalsNull f.base) (h : insertFiling s f = .ok s') :
    ∃ g, getFiling s' f.filing_id = some g ∧ g = f ∧ allTotalsNull g.base :=
  ⟨f, getFiling_insertFiling h, rfl, hnull⟩

/-- Claim C6 witness: the round trip at a concrete all-null filing. -/
theorem claim6_null_totals_round_trip_witness :
    ∃ g, getFiling nullTotalsStore 42 = some g ∧ g = nullTotalsFiling ∧
      allTotalsNull g.base :=
  claim6_null_totals_round_trip emptyStore nullTotalsStore nullTotalsFiling
    ⟨rfl, rfl, rfl, rfl, rfl, rfl, rfl, rfl, rfl, rfl, rfl, rfl, rfl, rfl,
      rfl, rfl, rfl, rfl, rfl⟩ rfl

/-- Claim C7: an insertion payload is rejected for a missing required field
exactly when one of its non-nullable fields is absent — `filing_id` or
`amendment_count` on the summary, `amend_id` on the version, a reporting
period bound on either, `line_item` or `amount` on a Schedule A item — so
a payload supplying all required fields is never rejected for a
missing-field reason. -/
theorem claim7_required_field_validation (rf : RawFiling)
    (rv : RawFilingVersion) (ra : RawScheduleAItem) :
    ((∃ x, validateFiling rf = .ok x) ↔
      rf.filing_id.isSome = true ∧ rf.amendment_count.isSome = true ∧
      rf.base.from_date.isSome = true ∧ rf.base.thru_date.isSome = true) ∧
    ((∃ x, validateFilingVersion rv = .ok x) ↔
      rv.amend_id.isSome = true ∧ rv.base.from_date.isSome = true ∧
      rv.base.thru_date.isSome = true) ∧
    ((∃ x, validateScheduleAItem ra = .ok x) ↔
      ra.line_item.isSome = true ∧ ra.amount.isSome = true) := by
  refine ⟨?_, ?_, ?_⟩
  · cases h1 : rf.filing_id <;> cases h2 : rf.amendment_count <;>
      cases h3 : rf.base.from_date <;> cases h4 : rf.base.thru_date <;>
      simp [validateFiling, validateFilingBase, h1, h2, h3, h4]
  · cases h1 : rv.amend_id <;> cases h3 : rv.base.from_date <;>
      cases h4 : rv.base.thru_date <;>
      simp [validateFilingVersion, validateFilingBase, h1, h3, h4]
  · cases h1 : ra.line_item <;> cases h2 : ra.amount <;>
      simp [validateScheduleAItem, h1, h2]

/-- Claim C8: the spec's walkthrough scenario — FilingSummary 1001 with
amendment_count 0, FilingVersion (1001, 0) with the same totals, Schedule A
item (1001, 1, 2500.00) — ends with the unique lookup by (1001, 1) on the
Schedule A current table returning exactly one row with amount 2500.00
(250000 cents), and the summary's amendment_count still 0. -/
theorem claim8_scenario :
    insertFiling emptyStore ⟨1001, 0, scenarioBase⟩ = .ok scenarioStore1 ∧
    insertFilingVersion scenarioStore1 ⟨1, some 1001, 0, scenarioBase⟩ =
      .ok scenarioStore2 ∧
    insertScheduleAItem scenarioStore2 ⟨some 1001, 1, ⟨250000⟩⟩ =
      .ok scenarioStore3 ∧
    lookupItems scenarioStore3.schedule_a_items 1001 1 =
      [⟨some 1001, 1, ⟨250000⟩⟩] ∧
    (getFiling scenarioStore3 1001).map Form460Filing.amendment_count =
      some 0 :=
  ⟨rfl, rfl, rfl, rfl, rfl⟩

/-- Claim C9: composite uniqueness does not constrain rows with an absent
key component: two orphaned Schedule A rows with the same line_item, and
two orphaned filing-version rows with the same amend_id, coexist in their
tables after successful duplicate insertions. -/
theorem claim9_orphans_coexist :
    (insertScheduleAItem emptyStore orphanItemA = .ok orphanStore1 ∧
      insertScheduleAItem orphanStore1 orphanItemB = .ok orphanStore2 ∧
      orphanStore2.schedule_a_items = [orphanItemA, orphanItemB] ∧
      orphanItemA.parent = none ∧ orphanItemB.parent = none ∧
      orphanItemA.line_item = orphanItemB.line_item) ∧
    (insertFilingVersion emptyStore nullVersionA = .ok nullVersionStore1 ∧
      insertFilingVersion nullVersionStore1 nullVersionB =
        .ok nullVersionStore2 ∧
      nullVersionStore2.versions = [nullVersionA, nullVersionB] ∧
      nullVersionA.filing = none ∧ nullVersionB.filing = none ∧
      nullVersionA.amend_id = nullVersionB.amend_id) :=
  ⟨⟨rfl, rfl, rfl, rfl, rfl, rfl⟩, ⟨rfl, rfl, rfl, rfl, rfl, rfl⟩⟩

/-- Claim C10: the version-tier itemized `__str__` dereferences the
`filing_version` parent: on an orphaned row (NULL reference) it fails and
returns no value; on a row whose referenced version row is present it
returns the dash-joined filing id, amendment id and line item. -/
theorem claim10_version_str (α : Type) (s : Store) (it : ItemizedRow α) :
    (it.parent = none → itemVersionStr s it = none) ∧
    (∀ (pk : Int) (v : Form460FilingVersion), it.parent = some pk →
      getVersionByPk s pk = some v →
      itemVersionStr s it =
        some (pyStrOptInt v.filing ++ "-" ++ toString v.amend_id ++ "-" ++
          toString it.line_item)) := by
  constructor
  · intro h
    simp [itemVersionStr, h]
  · intro pk v hp hv
    simp [itemVersionStr, hp, hv]

/-- Claim C10 witness: the string representation at a concrete resolvable
row. -/
theorem claim10_version_str_witness :
    itemVersionStr scenarioStore2
      (⟨some 1, 3, ⟨300⟩⟩ : ItemizedRow SchedAData) =
      some (pyStrOptInt (some 1001) ++ "-" ++ toString (0 : Int) ++ "-" ++
        toString (3 : Int)) :=
  (claim10_version_str SchedAData scenarioStore2 ⟨some 1, 3, ⟨300⟩⟩).2 1
    ⟨1, some 1001, 0, scenarioBase⟩ rfl rfl

end Form460
